import Mathlib

/-!
Shallow embedding of `src/robot_callbacks.py` (benchbot robot controller).

Poses in the source are homogeneous transform matrices obtained through
`tf_msg_to_SE2`, i.e. planar rigid-body transforms: a rotation about the
z axis by an angle `θ` together with a translation `(x, y)`.  We embed a
pose as the record `Pose2` of those three real parameters; the matrix
operations of the source (`np.matmul`, `np.linalg.inv`, slicing out the
translation, `arctan2`, yaw extraction through Euler angles) become the
corresponding closed-form operations on `(x, y, θ)`.

Floating point is idealised as `ℝ`; `np.arctan2 y x` is `Complex.arg ⟨x, y⟩`
(both return the angle of the vector `(x, y)` in `(-π, π]`, with `0` at the
origin); the scipy call `as_euler(XYZ)[2]` applied to a rotation about z by `θ`
is the normalisation of `θ` into `(-π, π]`, embedded as `yaw_of_angle`.

The two servo loops `_move_to_angle` / `_move_to_pose` are embedded as
fuel-indexed recursions over an environment that supplies, per loop
iteration, the collision flag and the result of the pose lookup (`.ok` a
pose, or `.error` when the tf lookup raises).  An uncaught lookup error
aborts the loop exactly as a Python exception does: the commands published
so far stand, and the `publisher.publish(Twist())` after the loop does not
run.  The published `Twist` messages are collected in a list, in order.

Session state (`controller.state`) and configuration (`controller.config`)
are embedded as the records `CState` and `Config`; the tf buffer is a total
lookup function carried in `CState` (the loop embedding instead models a
per-tick fallible lookup, which is how `_current_pose` can raise inside a
loop body).  `move_next` returns, besides the updated state, whether
`_move_to_pose` was invoked and whether the call completed without raising
(`ok = false` models the uncaught `IndexError` on an exhausted waypoint
list).
-/

/-- Real-number model of `np.mod` (result has the sign of the divisor):
`np.mod(a, b) = a - b * floor(a / b)`. -/
noncomputable def fmod (a b : ℝ) : ℝ := a - b * ⌊a / b⌋

/-- Source `__pi_wrap(angle) = np.mod(angle + np.pi, 2 * np.pi) - np.pi`
(robot_callbacks.py line 42). -/
noncomputable def pi_wrap (angle : ℝ) : ℝ := fmod (angle + Real.pi) (2 * Real.pi) - Real.pi

/-- The yaw read back from a pure z-rotation by `θ` through
`Rot.from_dcm(...).as_euler(XYZ)[2]`: the representative of `θ` modulo
`2π` lying in `(-π, π]` (scipy extracts it with `arctan2`). -/
noncomputable def yaw_of_angle (θ : ℝ) : ℝ := -(pi_wrap (-θ))

/-- A planar pose: the SE(2) transform with rotation angle `θ` about z and
translation `(x, y)`, i.e. the homogeneous matrix
`[[cos θ, -sin θ, 0, x], [sin θ, cos θ, 0, y], [0,0,1,0], [0,0,0,1]]`. -/
structure Pose2 where
  x : ℝ
  y : ℝ
  θ : ℝ

/-- Embedding of `np.matmul(a, b)` on the transforms: rotation angles add;
the translation of `b` is rotated by `a.θ` and offset by the translation of `a`. -/
noncomputable def compose (a b : Pose2) : Pose2 :=
  ⟨a.x + Real.cos a.θ * b.x - Real.sin a.θ * b.y,
   a.y + Real.sin a.θ * b.x + Real.cos a.θ * b.y,
   a.θ + b.θ⟩

/-- Source `__tr_b_wrt_a(a, b) = np.matmul(np.linalg.inv(a), b)` (line 56-58):
for SE(2) matrices, `inv(a) * b` has rotation angle `b.θ - a.θ` and
translation `R(-a.θ) * (t_b - t_a)`. -/
noncomputable def tr_b_wrt_a (a b : Pose2) : Pose2 :=
  ⟨Real.cos a.θ * (b.x - a.x) + Real.sin a.θ * (b.y - a.y),
   -Real.sin a.θ * (b.x - a.x) + Real.cos a.θ * (b.y - a.y),
   b.θ - a.θ⟩

/-- Real idealisation of `np.arctan2 y x`: the argument of the vector `(x, y)`,
in `(-π, π]`, `0` at the origin. -/
noncomputable def atan2 (y x : ℝ) : ℝ := Complex.arg ⟨x, y⟩

/-- Source `__ang_to_b(a, b)` (line 23-26): angle from the position of `a`
to the position of `b`, in the global frame. -/
noncomputable def ang_to_b (a b : Pose2) : ℝ := atan2 (b.y - a.y) (b.x - a.x)

/-- Source `__ang_to_b_wrt_a(a, b)` (line 29-33): angle to the position of
`b` expressed in the frame of `a` itself. -/
noncomputable def ang_to_b_wrt_a (a b : Pose2) : ℝ :=
  atan2 (tr_b_wrt_a a b).y (tr_b_wrt_a a b).x

/-- Source `__dist_from_a_to_b(a, b)` (line 36-38): 2D norm of the translation of
`__tr_b_wrt_a(a, b)`. -/
noncomputable def dist_from_a_to_b (a b : Pose2) : ℝ :=
  Real.sqrt ((tr_b_wrt_a a b).x ^ 2 + (tr_b_wrt_a a b).y ^ 2)

/-- Source `__yaw(matrix)` (line 67-69): Euler-z extraction from the rotation
block; for a z-rotation by `θ` this is `θ` normalised into `(-π, π]`. -/
noncomputable def yaw (m : Pose2) : ℝ := yaw_of_angle m.θ

/-- Source `__yaw_b_wrt_a(a, b)` (line 72-75): Euler-z extraction from the
rotation block of `__tr_b_wrt_a(a, b)`. -/
noncomputable def yaw_b_wrt_a (a b : Pose2) : ℝ := yaw_of_angle (tr_b_wrt_a a b).θ

/-- Constant `_MOVE_TOL_DIST = 0.01` (line 13). -/
noncomputable def MOVE_TOL_DIST : ℝ := 0.01

/-- Constant `_MOVE_TOL_YAW = np.deg2rad(1)` (line 14). -/
noncomputable def MOVE_TOL_YAW : ℝ := Real.pi / 180

/-- Constant `_MOVE_ANGLE_K = 3` (line 16). -/
noncomputable def MOVE_ANGLE_K : ℝ := 3

/-- Constant `_MOVE_POSE_K_RHO = 0.7` (line 18). -/
noncomputable def MOVE_POSE_K_RHO : ℝ := 0.7

/-- Constant `_MOVE_POSE_K_ALPHA = 7.5` (line 19). -/
noncomputable def MOVE_POSE_K_ALPHA : ℝ := 7.5

/-- Constant `_MOVE_POSE_K_BETA = -3` (line 20). -/
noncomputable def MOVE_POSE_K_BETA : ℝ := -3

/-- A `geometry_msgs` `Twist` restricted to the fields the controller
sets: `linear.x` and `angular.z`. -/
structure Twist where
  linear : ℝ
  angular : ℝ

/-- Model of `Twist()`: zero-initialised message, the stop command. -/
def twist_zero : Twist := ⟨0, 0⟩

/-- How a servo loop finished: collision exit, tolerance reached,
an uncaught tf lookup error, or fuel exhaustion (an artifact of the
fuel-indexed embedding; the Python loop is unbounded). -/
inductive MoveResult where
  | collided
  | succeeded
  | tfError
  | fuelOut
deriving DecidableEq, Repr

/-- Per-iteration external inputs of a servo loop: the collision flag
sampled at the top of iteration `t`, the outcome of the `_current_pose`
tf lookup during iteration `t`, and the speed factor. -/
structure MoveEnv where
  collided : Nat → Bool
  pose : Nat → Except Unit Pose2
  sf : ℝ

/-- Loop `_move_to_angle(goal, publisher, controller)` (line 157-174), as a
fuel-indexed recursion starting at iteration `t`.  Returns the list of
published `Twist` messages and how the loop finished.  A `.error` pose
lookup propagates like the Python exception: nothing further is
published, in particular not the trailing `publisher.publish(Twist())`. -/
noncomputable def move_to_angle_aux (goal : Pose2) (env : MoveEnv) :
    Nat → Nat → List Twist × MoveResult
  | 0, _ => ([], .fuelOut)
  | fuel + 1, t =>
    if env.collided t then ([twist_zero], .collided)
    else
      match env.pose t with
      | .error _ => ([], .tfError)
      | .ok current =>
        let orientation_error := yaw_b_wrt_a current goal
        if |orientation_error| < MOVE_TOL_YAW then ([twist_zero], .succeeded)
        else
          let rest := move_to_angle_aux goal env fuel (t + 1)
          (⟨0, env.sf * MOVE_ANGLE_K * orientation_error⟩ :: rest.1, rest.2)

/-- The velocity message built and published by one non-terminal iteration
of `_move_to_pose` (line 188-214): `rho`, `alpha`, `beta` from the pose
algebra, the reverse transform when the goal is behind the robot, then
`linear = sf * (±1) * K_RHO * rho` and
`angular = sf * (K_ALPHA * alpha + K_BETA * beta)`. -/
noncomputable def pose_tick (sf : ℝ) (current goal : Pose2) : Twist :=
  let rho := dist_from_a_to_b current goal
  let alpha := pi_wrap (ang_to_b current goal - yaw current)
  let beta := pi_wrap (yaw goal - ang_to_b current goal)
  if |ang_to_b_wrt_a current goal| > Real.pi / 2 then
    ⟨sf * (-1) * MOVE_POSE_K_RHO * rho,
     sf * (MOVE_POSE_K_ALPHA * pi_wrap (alpha + Real.pi) +
           MOVE_POSE_K_BETA * pi_wrap (beta + Real.pi))⟩
  else
    ⟨sf * 1 * MOVE_POSE_K_RHO * rho,
     sf * (MOVE_POSE_K_ALPHA * alpha + MOVE_POSE_K_BETA * beta)⟩

/-- Loop `_move_to_pose(goal, publisher, controller)` (line 177-216), as a
fuel-indexed recursion starting at iteration `t`.  When `rho` falls below
`_MOVE_TOL_DIST` the code runs `_move_to_angle` (which consumes further
iterations of the same external streams), breaks, and publishes a final
zero `Twist`; a tf lookup error inside either loop propagates and skips
every later publish. -/
noncomputable def move_to_pose_aux (goal : Pose2) (env : MoveEnv) :
    Nat → Nat → List Twist × MoveResult
  | 0, _ => ([], .fuelOut)
  | fuel + 1, t =>
    if env.collided t then ([twist_zero], .collided)
    else
      match env.pose t with
      | .error _ => ([], .tfError)
      | .ok current =>
        if dist_from_a_to_b current goal < MOVE_TOL_DIST then
          let inner := move_to_angle_aux goal env fuel (t + 1)
          match inner.2 with
          | .tfError => (inner.1, .tfError)
          | .fuelOut => (inner.1, .fuelOut)
          | r => (inner.1 ++ [twist_zero], r)
        else
          let rest := move_to_pose_aux goal env fuel (t + 1)
          (pose_tick env.sf current goal :: rest.1, rest.2)

/-- The configuration fields of `controller.config` used by the embedded
operations. -/
structure Config where
  task_name : String
  localisation : String
  global_frame : String
  robot_frame : String
  poses : List String
  trajectory_poses : List (List ℝ)

/-- The session state of `controller` used by the embedded operations:
the dirty flag, the state entry initial_pose_tf_mat (`none` = key absent),
the state entry trajectory_pose_next (`none` = key absent),
the state entry trajectory_poses, and the tf buffer as a total lookup from
(parent frame, child frame) to a pose. -/
structure CState where
  dirty : Bool
  initial_pose : Option Pose2
  trajectory_pose_next : Option Nat
  trajectory_poses : Option (List (List ℝ))
  tf : String → String → Pose2

/-- Whether `_current_pose` takes the ground-truth branch (line 139):
whether the string ground_truth occurs inside the task name field of the
configuration, i.e. substring containment. -/
def current_pose_gt_mode (cfg : Config) : Bool :=
  decide (List.IsInfix "ground_truth".toList cfg.task_name.toList)

/-- Whether `create_pose_list` takes the ground-truth branch (line 224):
whether the localisation field of the configuration differs from the
string noisy. -/
def create_pose_list_gt_mode (cfg : Config) : Bool :=
  cfg.localisation != "noisy"

/-- Source `_define_initial_pose(controller)` (line 110-117): memoise
`lookup(global_frame, robot_frame)` under the key initial_pose_tf_mat, only
when the instance is clean and the key is absent. -/
def define_initial_pose (cfg : Config) (s : CState) : CState :=
  if !s.dirty && s.initial_pose.isNone then
    { s with initial_pose := some (s.tf cfg.global_frame cfg.robot_frame) }
  else s

/-- Source `_get_noisy_pose(controller, child_frame)` (line 120-131):
`initial_pose * lookup(odom, child_frame)`; `none` models the `KeyError`
raised when the initial pose was never set. -/
noncomputable def get_noisy_pose (s : CState) (child_frame : String) : Option Pose2 :=
  s.initial_pose.map (fun ip => compose ip (s.tf "odom" child_frame))

/-- Source `_current_pose(controller)` (line 134-149): ensure the initial pose is
defined, then return the ground-truth lookup or the noisy composition
depending on whether ground_truth occurs in the task name.  Returns
the updated state together with the pose (`none` models the noisy-mode
`KeyError` when no initial pose could be captured). -/
noncomputable def current_pose (cfg : Config) (s : CState) : CState × Option Pose2 :=
  let s1 := define_initial_pose cfg s
  if current_pose_gt_mode cfg then
    (s1, some (s1.tf cfg.global_frame cfg.robot_frame))
  else
    (s1, get_noisy_pose s1 cfg.robot_frame)

/-- Source `create_pose_list(data, controller)` (line 219-247), keeping for each
named pose the resolved transform (the source additionally re-encodes each
transform as translation + rpy + quaternion, a lossless reformatting we
omit): ground-truth lookups against the global frame when
ground truth when localisation is not noisy, otherwise noisy compositions;
the entry initial_pose
taken from the memoised state; the `left_camera` key renamed `camera`. -/
noncomputable def create_pose_list (cfg : Config) (s : CState) :
    CState × List (String × Option Pose2) :=
  let s1 := define_initial_pose cfg s
  let gt_mode := create_pose_list_gt_mode cfg
  let tfs := (cfg.poses.filter (fun p => p ≠ "initial_pose")).map
    (fun p => (p, if gt_mode then some (s1.tf cfg.global_frame p)
                  else get_noisy_pose s1 p))
  let tfs2 := if "initial_pose" ∈ cfg.poses then
      tfs ++ [("initial_pose", s1.initial_pose)]
    else tfs
  (s1, tfs2.map (fun kv =>
    (if decide (List.IsInfix "left_camera".toList kv.1.toList) then "camera" else kv.1,
     kv.2)))

/-- Result of one `move_next` call: the updated state, whether
`_move_to_pose` was invoked, whether the call completed without raising
(`ok = false` models the uncaught `IndexError` when the cursor is past the
end of the waypoint list), and whether the run-out message was logged. -/
structure MoveNextRes where
  state : CState
  invoked : Bool
  ok : Bool
  logged_out : Bool

/-- Source `move_next(data, publisher, controller)` (line 314-334): lazily
initialise the cursor and waypoint list, index the waypoint at the cursor
(raising when out of range, before `_move_to_pose` is entered), servo to
it, increment the cursor, and log once the list has run out. -/
def move_next (cfg : Config) (s : CState) : MoveNextRes :=
  let s1 := match s.trajectory_pose_next with
    | none => { s with trajectory_pose_next := some 0,
                       trajectory_poses := some cfg.trajectory_poses }
    | some _ => s
  match s1.trajectory_pose_next, s1.trajectory_poses with
  | some c, some ps =>
    if c < ps.length then
      ⟨{ s1 with trajectory_pose_next := some (c + 1) }, true, true,
       decide (ps.length ≤ c + 1)⟩
    else
      ⟨s1, false, false, false⟩
  | _, _ => ⟨s1, false, false, false⟩

/-- The state after `k` successive `move_next` calls starting from `s`. -/
def move_next_iter (cfg : Config) (s : CState) : Nat → CState
  | 0 => s
  | k + 1 => (move_next cfg (move_next_iter cfg s k)).state

theorem fmod_nonneg_of_pos (a b : ℝ) (hb : 0 < b) : 0 ≤ fmod a b := by
  have h1 : (⌊a / b⌋ : ℝ) ≤ a / b := Int.floor_le (a / b)
  have h2 : b * (⌊a / b⌋ : ℝ) ≤ b * (a / b) := by nlinarith
  have h3 : b * (a / b) = a := by field_simp
  simp only [fmod]
  linarith

theorem fmod_lt_of_pos (a b : ℝ) (hb : 0 < b) : fmod a b < b := by
  have h1 : a / b < (⌊a / b⌋ : ℝ) + 1 := Int.lt_floor_add_one (a / b)
  have h2 : b * (a / b) < b * ((⌊a / b⌋ : ℝ) + 1) := by nlinarith
  have h3 : b * (a / b) = a := by field_simp
  simp only [fmod]
  nlinarith

theorem fmod_eq_self (a b : ℝ) (hb : 0 < b) (h0 : 0 ≤ a) (h1 : a < b) : fmod a b = a := by
  have hfloor : ⌊a / b⌋ = 0 := by
    rw [Int.floor_eq_zero_iff]
    constructor
    · exact div_nonneg h0 hb.le
    · rw [div_lt_one hb]
      exact h1
  simp [fmod, hfloor]

theorem fmod_add_int_mul (a b : ℝ) (k : ℤ) (hb : b ≠ 0) :
    fmod (a + b * k) b = fmod a b := by
  have hdiv : (a + b * k) / b = a / b + k := by
    field_simp
    ring
  have hfloor : ⌊(a + b * k) / b⌋ = ⌊a / b⌋ + k := by
    rw [hdiv, Int.floor_add_int]
  simp only [fmod, hfloor]
  push_cast
  ring

theorem pi_wrap_lb (x : ℝ) : -Real.pi ≤ pi_wrap x := by
  have h := fmod_nonneg_of_pos (x + Real.pi) (2 * Real.pi) Real.two_pi_pos
  simp only [pi_wrap]
  linarith

theorem pi_wrap_ub (x : ℝ) : pi_wrap x < Real.pi := by
  have h := fmod_lt_of_pos (x + Real.pi) (2 * Real.pi) Real.two_pi_pos
  simp only [pi_wrap]
  linarith

theorem pi_wrap_eq_self (x : ℝ) (h1 : -Real.pi ≤ x) (h2 : x < Real.pi) :
    pi_wrap x = x := by
  have h := fmod_eq_self (x + Real.pi) (2 * Real.pi) Real.two_pi_pos
    (by linarith) (by linarith)
  simp only [pi_wrap, h]
  ring

theorem pi_wrap_add_int (x : ℝ) (k : ℤ) :
    pi_wrap (x + 2 * Real.pi * k) = pi_wrap x := by
  have h : x + 2 * Real.pi * k + Real.pi = x + Real.pi + 2 * Real.pi * k := by ring
  simp only [pi_wrap, h, fmod_add_int_mul _ _ _ (ne_of_gt Real.two_pi_pos)]

theorem pi_wrap_exists_int (x : ℝ) : ∃ k : ℤ, pi_wrap x = x + 2 * Real.pi * k := by
  refine ⟨-⌊(x + Real.pi) / (2 * Real.pi)⌋, ?_⟩
  simp only [pi_wrap, fmod]
  push_cast
  ring

theorem pi_wrap_zero : pi_wrap 0 = 0 :=
  pi_wrap_eq_self 0 (by linarith [Real.pi_pos]) Real.pi_pos

theorem pi_wrap_pi : pi_wrap Real.pi = -Real.pi := by
  have h1 : Real.pi = -Real.pi + 2 * Real.pi * ((1 : ℤ) : ℝ) := by push_cast; ring
  calc pi_wrap Real.pi = pi_wrap (-Real.pi + 2 * Real.pi * ((1 : ℤ) : ℝ)) := by rw [← h1]
    _ = pi_wrap (-Real.pi) := pi_wrap_add_int (-Real.pi) 1
    _ = -Real.pi := pi_wrap_eq_self (-Real.pi) le_rfl (by linarith [Real.pi_pos])

theorem yaw_of_angle_lb (θ : ℝ) : -Real.pi < yaw_of_angle θ := by
  have h := pi_wrap_ub (-θ)
  simp only [yaw_of_angle]
  linarith

theorem yaw_of_angle_ub (θ : ℝ) : yaw_of_angle θ ≤ Real.pi := by
  have h := pi_wrap_lb (-θ)
  simp only [yaw_of_angle]
  linarith

theorem yaw_of_angle_eq_self (θ : ℝ) (h1 : -Real.pi < θ) (h2 : θ ≤ Real.pi) :
    yaw_of_angle θ = θ := by
  have h := pi_wrap_eq_self (-θ) (by linarith) (by linarith)
  simp only [yaw_of_angle, h, neg_neg]

theorem yaw_of_angle_exists_int (θ : ℝ) :
    ∃ k : ℤ, yaw_of_angle θ = θ + 2 * Real.pi * k := by
  obtain ⟨k, hk⟩ := pi_wrap_exists_int (-θ)
  refine ⟨-k, ?_⟩
  simp only [yaw_of_angle, hk]
  push_cast
  ring

theorem yaw_of_angle_add_int (θ : ℝ) (k : ℤ) :
    yaw_of_angle (θ + 2 * Real.pi * k) = yaw_of_angle θ := by
  have h : -(θ + 2 * Real.pi * k) = -θ + 2 * Real.pi * ((-k : ℤ) : ℝ) := by
    push_cast; ring
  simp only [yaw_of_angle, h, pi_wrap_add_int]

/-- C3 counterexample: the claim puts `wrap(x)` in `(-π, π]` for every real
`x`, but at `x = π` the source function `__pi_wrap` returns `-π`, not in
`(-π, π]`. -/
theorem C3_wrap_range_counterexample :
    pi_wrap Real.pi = -Real.pi ∧ pi_wrap Real.pi ∉ Set.Ioc (-Real.pi) Real.pi := by
  refine ⟨pi_wrap_pi, ?_⟩
  rw [pi_wrap_pi]
  simp [Set.mem_Ioc]

/-- C3, amended: for every real `x`, `__pi_wrap x` lies in the half-open
interval `[-π, π)` (not `(-π, π]`), and `__pi_wrap` is idempotent. -/
theorem C3_wrap_range_and_idempotent (x : ℝ) :
    pi_wrap x ∈ Set.Ico (-Real.pi) Real.pi ∧ pi_wrap (pi_wrap x) = pi_wrap x := by
  refine ⟨⟨pi_wrap_lb x, pi_wrap_ub x⟩, ?_⟩
  exact pi_wrap_eq_self (pi_wrap x) (pi_wrap_lb x) (pi_wrap_ub x)

/-- C8: the 2D distance `__dist_from_a_to_b` is symmetric: the relative
translation `inverse(A)·B` is a rotation of `t_B - t_A`, whose norm does
not depend on the rotation, so swapping `A` and `B` only flips the sign of
the translation difference. -/
theorem C8_dist_symm (a b : Pose2) : dist_from_a_to_b a b = dist_from_a_to_b b a := by
  simp only [dist_from_a_to_b, tr_b_wrt_a]
  refine congrArg Real.sqrt ?_
  linear_combination ((b.x - a.x) ^ 2 + (b.y - a.y) ^ 2) * Real.sin_sq_add_cos_sq a.θ -
    ((b.x - a.x) ^ 2 + (b.y - a.y) ^ 2) * Real.sin_sq_add_cos_sq b.θ

theorem move_to_angle_aux_exit_zero (goal : Pose2) (env : MoveEnv) :
    ∀ fuel t, ((move_to_angle_aux goal env fuel t).2 = MoveResult.collided ∨
      (move_to_angle_aux goal env fuel t).2 = MoveResult.succeeded) →
    (move_to_angle_aux goal env fuel t).1.getLast? = some twist_zero := by
  intro fuel
  induction fuel with
  | zero =>
    intro t h
    simp [move_to_angle_aux] at h
  | succ n ih =>
    intro t h
    by_cases hc : env.collided t
    · simp [move_to_angle_aux, hc]
    · rcases hpose : env.pose t with e | current
      · simp [move_to_angle_aux, hc, hpose] at h
      · by_cases htol : |yaw_b_wrt_a current goal| < MOVE_TOL_YAW
        · simp [move_to_angle_aux, hc, hpose, htol]
        · simp only [move_to_angle_aux, hc, hpose, htol, Bool.false_eq_true,
            if_false, if_neg] at h ⊢
          have hlast := ih (t + 1) h
          rcases hr : (move_to_angle_aux goal env n (t + 1)).1 with _ | ⟨hd, tl⟩
          · rw [hr] at hlast
            simp at hlast
          · rw [hr] at hlast
            rw [List.getLast?_cons_cons]
            exact hlast

theorem move_to_pose_aux_exit_zero (goal : Pose2) (env : MoveEnv) :
    ∀ fuel t, ((move_to_pose_aux goal env fuel t).2 = MoveResult.collided ∨
      (move_to_pose_aux goal env fuel t).2 = MoveResult.succeeded) →
    (move_to_pose_aux goal env fuel t).1.getLast? = some twist_zero := by
  intro fuel
  induction fuel with
  | zero =>
    intro t h
    simp [move_to_pose_aux] at h
  | succ n ih =>
    intro t h
    by_cases hc : env.collided t
    · simp [move_to_pose_aux, hc]
    · rcases hpose : env.pose t with e | current
      · simp [move_to_pose_aux, hc, hpose] at h
      · by_cases htol : dist_from_a_to_b current goal < MOVE_TOL_DIST
        · rcases hr2 : (move_to_angle_aux goal env n (t + 1)).2
          · simp [move_to_pose_aux, hc, hpose, htol, hr2, List.getLast?_concat]
          · simp [move_to_pose_aux, hc, hpose, htol, hr2, List.getLast?_concat]
          · simp [move_to_pose_aux, hc, hpose, htol, hr2] at h
          · simp [move_to_pose_aux, hc, hpose, htol, hr2] at h
        · simp only [move_to_pose_aux, hc, hpose, htol, Bool.false_eq_true,
            if_false, if_neg] at h ⊢
          have hlast := ih (t + 1) h
          rcases hr : (move_to_pose_aux goal env n (t + 1)).1 with _ | ⟨hd, tl⟩
          · rw [hr] at hlast
            simp at hlast
          · rw [hr] at hlast
            rw [List.getLast?_cons_cons]
            exact hlast

/-- C1, amended: on every non-exceptional exit path — collision exit or
tolerance reached — both servo loops publish a final zero-velocity
command; but when a transform lookup raises inside the loop body, the
exception propagates past the trailing `publisher.publish(Twist())` and
no final zero command is published (see the counterexample). -/
theorem C1_zero_velocity_on_normal_exit :
    (∀ (goal : Pose2) (env : MoveEnv) (fuel t : Nat),
      ((move_to_angle_aux goal env fuel t).2 = MoveResult.collided ∨
        (move_to_angle_aux goal env fuel t).2 = MoveResult.succeeded) →
      (move_to_angle_aux goal env fuel t).1.getLast? = some twist_zero) ∧
    (∀ (goal : Pose2) (env : MoveEnv) (fuel t : Nat),
      ((move_to_pose_aux goal env fuel t).2 = MoveResult.collided ∨
        (move_to_pose_aux goal env fuel t).2 = MoveResult.succeeded) →
      (move_to_pose_aux goal env fuel t).1.getLast? = some twist_zero) :=
  ⟨fun goal env fuel t h => move_to_angle_aux_exit_zero goal env fuel t h,
   fun goal env fuel t h => move_to_pose_aux_exit_zero goal env fuel t h⟩

/-- C1 witness: a move whose collision signal is already set on the first
iteration exits on the collision path with a trailing zero command. -/
theorem C1_zero_velocity_on_normal_exit_witness :
    (move_to_pose_aux ⟨0, 0, 0⟩ ⟨fun _ => true, fun _ => Except.ok ⟨0, 0, 0⟩, 1⟩
      1 0).1.getLast? = some twist_zero :=
  C1_zero_velocity_on_normal_exit.2 ⟨0, 0, 0⟩
    ⟨fun _ => true, fun _ => Except.ok ⟨0, 0, 0⟩, 1⟩ 1 0
    (Or.inl (by simp [move_to_pose_aux]))

/-- C1 counterexample: with the collision signal false and the transform
lookup failing on the first loop body, both loops abort with the lookup
error having published nothing at all — in particular no final
zero-velocity command, contradicting the clause of the claim: every exit path,
including error paths such as a transform lookup failing inside the
loop body. -/
theorem C1_counterexample :
    move_to_pose_aux ⟨0, 0, 0⟩ ⟨fun _ => false, fun _ => Except.error (), 1⟩ 1 0 =
      ([], MoveResult.tfError) ∧
    move_to_angle_aux ⟨0, 0, 0⟩ ⟨fun _ => false, fun _ => Except.error (), 1⟩ 1 0 =
      ([], MoveResult.tfError) ∧
    (move_to_pose_aux ⟨0, 0, 0⟩ ⟨fun _ => false, fun _ => Except.error (), 1⟩
      1 0).1.getLast? ≠ some twist_zero := by
  refine ⟨by simp [move_to_pose_aux], by simp [move_to_angle_aux], ?_⟩
  simp [move_to_pose_aux]

/-- C4: if the collision oracle is true on the first iteration of a
drive-to-pose move, the loop publishes exactly one velocity command, the
zero command, and exits on the collision path; no nonzero velocity is
ever commanded during that move. -/
theorem C4_collision_first_tick (goal : Pose2) (env : MoveEnv) (fuel : Nat)
    (h : env.collided 0 = true) :
    move_to_pose_aux goal env (fuel + 1) 0 = ([twist_zero], MoveResult.collided) := by
  simp [move_to_pose_aux, h]

/-- C4 witness: concrete environment whose collision flag is set from the
start. -/
theorem C4_collision_first_tick_witness :
    move_to_pose_aux ⟨0, 0, 0⟩ ⟨fun _ => true, fun _ => Except.ok ⟨0, 0, 0⟩, 1⟩ 1 0 =
      ([twist_zero], MoveResult.collided) :=
  C4_collision_first_tick ⟨0, 0, 0⟩ ⟨fun _ => true, fun _ => Except.ok ⟨0, 0, 0⟩, 1⟩ 0 rfl

theorem pi_wrap_neg_pi : pi_wrap (-Real.pi) = -Real.pi :=
  pi_wrap_eq_self (-Real.pi) le_rfl (by linarith [Real.pi_pos])

theorem yaw_of_angle_zero : yaw_of_angle 0 = 0 :=
  yaw_of_angle_eq_self 0 (by linarith [Real.pi_pos]) Real.pi_pos.le

theorem atan2_zero_one : atan2 0 1 = 0 := by
  have h : (⟨1, 0⟩ : ℂ) = (1 : ℂ) := by
    apply Complex.ext <;> simp
  rw [atan2, h, Complex.arg_one]

theorem atan2_zero_neg_one : atan2 0 (-1) = Real.pi := by
  have h : (⟨-1, 0⟩ : ℂ) = (-1 : ℂ) := by
    apply Complex.ext <;> simp
  rw [atan2, h, Complex.arg_neg_one]

theorem tr_origin_back : tr_b_wrt_a ⟨0, 0, 0⟩ ⟨-1, 0, 0⟩ = ⟨-1, 0, 0⟩ := by
  simp [tr_b_wrt_a]

theorem tr_origin_ahead : tr_b_wrt_a ⟨0, 0, 0⟩ ⟨1, 0, 0⟩ = ⟨1, 0, 0⟩ := by
  simp [tr_b_wrt_a]

theorem dist_origin_back : dist_from_a_to_b ⟨0, 0, 0⟩ ⟨-1, 0, 0⟩ = 1 := by
  rw [dist_from_a_to_b, tr_origin_back]
  norm_num

theorem dist_origin_ahead : dist_from_a_to_b ⟨0, 0, 0⟩ ⟨1, 0, 0⟩ = 1 := by
  rw [dist_from_a_to_b, tr_origin_ahead]
  norm_num

theorem ang_origin_back : ang_to_b ⟨0, 0, 0⟩ ⟨-1, 0, 0⟩ = Real.pi := by
  show atan2 (0 - 0) (-1 - 0) = Real.pi
  norm_num [atan2_zero_neg_one]

theorem ang_origin_ahead : ang_to_b ⟨0, 0, 0⟩ ⟨1, 0, 0⟩ = 0 := by
  show atan2 (0 - 0) (1 - 0) = 0
  norm_num [atan2_zero_one]

theorem ang_wrt_origin_back : ang_to_b_wrt_a ⟨0, 0, 0⟩ ⟨-1, 0, 0⟩ = Real.pi := by
  rw [ang_to_b_wrt_a, tr_origin_back]
  show atan2 0 (-1) = Real.pi
  exact atan2_zero_neg_one

theorem ang_wrt_origin_ahead : ang_to_b_wrt_a ⟨0, 0, 0⟩ ⟨1, 0, 0⟩ = 0 := by
  rw [ang_to_b_wrt_a, tr_origin_ahead]
  show atan2 0 1 = 0
  exact atan2_zero_one

/-- C5, amended: on every non-terminal iteration of the drive-to-pose loop
(not collided, pose lookup succeeded, `rho` at or above tolerance), the
emitted command is `linear = sf * (±1) * 0.7 * rho` and
`angular = sf * (7.5 * alpha + (-3) * beta)` where `alpha` and `beta` are
the wrapped bearing/heading errors AFTER the reverse adjustment of the
behind-goal case has been applied to them (the claim as stated uses the
unadjusted `alpha`, `beta` in the angular term; the counterexample shows
that fails on a reverse tick). -/
theorem C5_tick_command (goal current : Pose2) (env : MoveEnv) (fuel t : Nat)
    (hc : env.collided t = false) (hp : env.pose t = Except.ok current)
    (hnt : ¬ dist_from_a_to_b current goal < MOVE_TOL_DIST) :
    (move_to_pose_aux goal env (fuel + 1) t).1.head? = some (
      if |ang_to_b_wrt_a current goal| > Real.pi / 2 then
        ⟨env.sf * (-1) * MOVE_POSE_K_RHO * dist_from_a_to_b current goal,
         env.sf * (MOVE_POSE_K_ALPHA *
             pi_wrap (pi_wrap (ang_to_b current goal - yaw current) + Real.pi) +
           MOVE_POSE_K_BETA *
             pi_wrap (pi_wrap (yaw goal - ang_to_b current goal) + Real.pi))⟩
      else
        ⟨env.sf * 1 * MOVE_POSE_K_RHO * dist_from_a_to_b current goal,
         env.sf * (MOVE_POSE_K_ALPHA * pi_wrap (ang_to_b current goal - yaw current) +
           MOVE_POSE_K_BETA * pi_wrap (yaw goal - ang_to_b current goal))⟩) := by
  simp only [move_to_pose_aux, hc, Bool.false_eq_true, if_false, hp]
  rw [if_neg hnt]
  simp only [List.head?_cons, pose_tick]

/-- C5 witness: goal one unit straight ahead with matching heading; the
first emitted command is `linear = 0.7`, `angular = 0`. -/
theorem C5_tick_command_witness :
    (move_to_pose_aux ⟨1, 0, 0⟩ ⟨fun _ => false, fun _ => Except.ok ⟨0, 0, 0⟩, 1⟩
      (1 + 1) 0).1.head? = some (
      if |ang_to_b_wrt_a ⟨0, 0, 0⟩ ⟨1, 0, 0⟩| > Real.pi / 2 then
        ⟨1 * (-1) * MOVE_POSE_K_RHO * dist_from_a_to_b ⟨0, 0, 0⟩ ⟨1, 0, 0⟩,
         1 * (MOVE_POSE_K_ALPHA *
             pi_wrap (pi_wrap (ang_to_b ⟨0, 0, 0⟩ ⟨1, 0, 0⟩ - yaw ⟨0, 0, 0⟩) + Real.pi) +
           MOVE_POSE_K_BETA *
             pi_wrap (pi_wrap (yaw ⟨1, 0, 0⟩ - ang_to_b ⟨0, 0, 0⟩ ⟨1, 0, 0⟩) + Real.pi))⟩
      else
        ⟨1 * 1 * MOVE_POSE_K_RHO * dist_from_a_to_b ⟨0, 0, 0⟩ ⟨1, 0, 0⟩,
         1 * (MOVE_POSE_K_ALPHA * pi_wrap (ang_to_b ⟨0, 0, 0⟩ ⟨1, 0, 0⟩ - yaw ⟨0, 0, 0⟩) +
           MOVE_POSE_K_BETA * pi_wrap (yaw ⟨1, 0, 0⟩ - ang_to_b ⟨0, 0, 0⟩ ⟨1, 0, 0⟩))⟩) :=
  C5_tick_command ⟨1, 0, 0⟩ ⟨0, 0, 0⟩ ⟨fun _ => false, fun _ => Except.ok ⟨0, 0, 0⟩, 1⟩ 1 0
    rfl rfl (by rw [dist_origin_ahead]; norm_num [MOVE_TOL_DIST])

/-- C5 counterexample: goal one unit exactly behind the robot.  The tick
is a reverse tick: the loop emits angular velocity `0` (the adjusted
`alpha`, `beta` are both `0`), while the formula of the claim
`sf * (7.5 * alpha + (-3) * beta)` over the unadjusted `alpha = beta = -π`
evaluates to `4.5π ≠ 0`. -/
theorem move_to_pose_aux_head (goal current : Pose2) (env : MoveEnv) (fuel t : Nat)
    (hc : env.collided t = false) (hp : env.pose t = Except.ok current)
    (hnt : ¬ dist_from_a_to_b current goal < MOVE_TOL_DIST) :
    (move_to_pose_aux goal env (fuel + 1) t).1.head? =
      some (pose_tick env.sf current goal) := by
  simp only [move_to_pose_aux, hc, Bool.false_eq_true, if_false, hp]
  rw [if_neg hnt]
  simp only [List.head?_cons]

theorem pose_tick_behind_angular :
    (pose_tick 1 ⟨0, 0, 0⟩ ⟨-1, 0, 0⟩).angular = 0 := by
  have hback : |ang_to_b_wrt_a ⟨0, 0, 0⟩ ⟨-1, 0, 0⟩| > Real.pi / 2 := by
    rw [ang_wrt_origin_back, abs_of_pos Real.pi_pos]
    linarith [Real.pi_pos]
  have hyaw0 : yaw (⟨0, 0, 0⟩ : Pose2) = 0 := by
    show yaw_of_angle 0 = 0
    exact yaw_of_angle_zero
  have hyaw1 : yaw (⟨-1, 0, 0⟩ : Pose2) = 0 := by
    show yaw_of_angle 0 = 0
    exact yaw_of_angle_zero
  have halpha : pi_wrap (ang_to_b ⟨0, 0, 0⟩ ⟨-1, 0, 0⟩ - yaw ⟨0, 0, 0⟩) = -Real.pi := by
    rw [ang_origin_back, hyaw0, sub_zero, pi_wrap_pi]
  have hbeta : pi_wrap (yaw ⟨-1, 0, 0⟩ - ang_to_b ⟨0, 0, 0⟩ ⟨-1, 0, 0⟩) = -Real.pi := by
    rw [ang_origin_back, hyaw1, zero_sub, pi_wrap_neg_pi]
  simp only [pose_tick]
  rw [if_pos hback]
  show (1 : ℝ) * (MOVE_POSE_K_ALPHA *
      pi_wrap (pi_wrap (ang_to_b ⟨0, 0, 0⟩ ⟨-1, 0, 0⟩ - yaw ⟨0, 0, 0⟩) + Real.pi) +
    MOVE_POSE_K_BETA *
      pi_wrap (pi_wrap (yaw ⟨-1, 0, 0⟩ - ang_to_b ⟨0, 0, 0⟩ ⟨-1, 0, 0⟩) + Real.pi)) = 0
  rw [halpha, hbeta]
  norm_num [pi_wrap_zero]

/-- C5 counterexample: goal one unit exactly behind the robot.  The tick
is a reverse tick: the loop emits angular velocity `0` (the adjusted
`alpha`, `beta` are both `0`), while the formula of the claim
`sf * (7.5 * alpha + (-3) * beta)` over the unadjusted `alpha = beta = -π`
evaluates to `4.5π ≠ 0`. -/
theorem C5_counterexample :
    ((move_to_pose_aux ⟨-1, 0, 0⟩ ⟨fun _ => false, fun _ => Except.ok ⟨0, 0, 0⟩, 1⟩
      (1 + 1) 0).1.head?.map Twist.angular) = some 0 ∧
    (1 : ℝ) * (MOVE_POSE_K_ALPHA * pi_wrap (ang_to_b ⟨0, 0, 0⟩ ⟨-1, 0, 0⟩ - yaw ⟨0, 0, 0⟩) +
      MOVE_POSE_K_BETA * pi_wrap (yaw ⟨-1, 0, 0⟩ - ang_to_b ⟨0, 0, 0⟩ ⟨-1, 0, 0⟩)) ≠ 0 := by
  have hyaw0 : yaw (⟨0, 0, 0⟩ : Pose2) = 0 := by
    show yaw_of_angle 0 = 0
    exact yaw_of_angle_zero
  have hyaw1 : yaw (⟨-1, 0, 0⟩ : Pose2) = 0 := by
    show yaw_of_angle 0 = 0
    exact yaw_of_angle_zero
  have halpha : pi_wrap (ang_to_b ⟨0, 0, 0⟩ ⟨-1, 0, 0⟩ - yaw ⟨0, 0, 0⟩) = -Real.pi := by
    rw [ang_origin_back, hyaw0, sub_zero, pi_wrap_pi]
  have hbeta : pi_wrap (yaw ⟨-1, 0, 0⟩ - ang_to_b ⟨0, 0, 0⟩ ⟨-1, 0, 0⟩) = -Real.pi := by
    rw [ang_origin_back, hyaw1, zero_sub, pi_wrap_neg_pi]
  constructor
  · have hnt : ¬ dist_from_a_to_b ⟨0, 0, 0⟩ ⟨-1, 0, 0⟩ < MOVE_TOL_DIST := by
      rw [dist_origin_back]
      norm_num [MOVE_TOL_DIST]
    rw [move_to_pose_aux_head ⟨-1, 0, 0⟩ ⟨0, 0, 0⟩
      ⟨fun _ => false, fun _ => Except.ok ⟨0, 0, 0⟩, 1⟩ 1 0 rfl rfl hnt]
    simp only [Option.map_some]
    show some ((pose_tick 1 ⟨0, 0, 0⟩ ⟨-1, 0, 0⟩).angular) = some 0
    rw [pose_tick_behind_angular]
  · rw [halpha, hbeta]
    simp only [MOVE_POSE_K_ALPHA, MOVE_POSE_K_BETA]
    intro hcontra
    nlinarith [Real.pi_pos]

/-- C6: when `|bearingRelative(current, goal)| > π/2` the drive-to-pose
tick is a reverse tick: `alpha` and `beta` are replaced by their
`+π`-wrapped versions, the linear command carries the `-1` factor, and for
positive `rho` and positive speed factor the commanded linear velocity is
negative. -/
theorem C6_reverse_tick (sf : ℝ) (current goal : Pose2)
    (h : |ang_to_b_wrt_a current goal| > Real.pi / 2) :
    pose_tick sf current goal =
      ⟨sf * (-1) * MOVE_POSE_K_RHO * dist_from_a_to_b current goal,
       sf * (MOVE_POSE_K_ALPHA *
           pi_wrap (pi_wrap (ang_to_b current goal - yaw current) + Real.pi) +
         MOVE_POSE_K_BETA *
           pi_wrap (pi_wrap (yaw goal - ang_to_b current goal) + Real.pi))⟩ ∧
    (0 < dist_from_a_to_b current goal → 0 < sf →
      (pose_tick sf current goal).linear < 0) := by
  have h1 : pose_tick sf current goal =
      ⟨sf * (-1) * MOVE_POSE_K_RHO * dist_from_a_to_b current goal,
       sf * (MOVE_POSE_K_ALPHA *
           pi_wrap (pi_wrap (ang_to_b current goal - yaw current) + Real.pi) +
         MOVE_POSE_K_BETA *
           pi_wrap (pi_wrap (yaw goal - ang_to_b current goal) + Real.pi))⟩ := by
    simp only [pose_tick]
    rw [if_pos h]
  refine ⟨h1, fun hd hsf => ?_⟩
  rw [h1]
  show sf * (-1) * MOVE_POSE_K_RHO * dist_from_a_to_b current goal < 0
  simp only [MOVE_POSE_K_RHO]
  nlinarith [mul_pos hsf hd]

/-- C6 witness: goal one unit exactly behind, speed factor 1: the tick is
a reverse tick and the commanded linear velocity is negative. -/
theorem C6_reverse_tick_witness :
    (pose_tick 1 ⟨0, 0, 0⟩ ⟨-1, 0, 0⟩).linear < 0 := by
  have hback : |ang_to_b_wrt_a ⟨0, 0, 0⟩ ⟨-1, 0, 0⟩| > Real.pi / 2 := by
    rw [ang_wrt_origin_back, abs_of_pos Real.pi_pos]
    linarith [Real.pi_pos]
  exact (C6_reverse_tick 1 ⟨0, 0, 0⟩ ⟨-1, 0, 0⟩ hback).2
    (by rw [dist_origin_back]; norm_num) (by norm_num)

/-- C9: on every iteration of the orientation-only loop that samples the
collision flag false and a successful pose lookup, the error driving the
controller is the yaw difference `yaw(goal) - yaw(current)` normalised to
`(-π, π]` (the wrap of the spec; the code obtains it by Euler extraction from
the relative rotation); the loop terminates on that iteration exactly when
`|error|` is below `np.deg2rad(1) = π/180`, and otherwise commands angular
velocity `sf * 3 * error`. -/
theorem C9_orientation_tick (goal current : Pose2) (env : MoveEnv) (fuel t : Nat)
    (hc : env.collided t = false) (hp : env.pose t = Except.ok current) :
    yaw_b_wrt_a current goal = yaw_of_angle (yaw goal - yaw current) ∧
    (|yaw_b_wrt_a current goal| < MOVE_TOL_YAW →
      move_to_angle_aux goal env (fuel + 1) t = ([twist_zero], MoveResult.succeeded)) ∧
    (¬ |yaw_b_wrt_a current goal| < MOVE_TOL_YAW →
      (move_to_angle_aux goal env (fuel + 1) t).1.head? =
        some ⟨0, env.sf * MOVE_ANGLE_K * yaw_b_wrt_a current goal⟩) := by
  have h1 : yaw_b_wrt_a current goal = yaw_of_angle (yaw goal - yaw current) := by
    obtain ⟨k1, hk1⟩ := yaw_of_angle_exists_int goal.θ
    obtain ⟨k2, hk2⟩ := yaw_of_angle_exists_int current.θ
    have heq : yaw goal - yaw current =
        (goal.θ - current.θ) + 2 * Real.pi * ((k1 - k2 : ℤ) : ℝ) := by
      simp only [yaw]
      rw [hk1, hk2]
      push_cast
      ring
    rw [heq, yaw_of_angle_add_int]
    rfl
  refine ⟨h1, fun htol => ?_, fun htol => ?_⟩
  · simp [move_to_angle_aux, hc, hp, htol]
  · simp [move_to_angle_aux, hc, hp, htol]

/-- C9 witness: heading error of `π/2` against tolerance `π/180`: the loop
does not terminate and commands `angular = 1 * 3 * (π/2)`. -/
theorem C9_orientation_tick_witness :
    yaw_b_wrt_a ⟨0, 0, 0⟩ ⟨0, 0, Real.pi / 2⟩ =
      yaw_of_angle (yaw ⟨0, 0, Real.pi / 2⟩ - yaw ⟨0, 0, 0⟩) ∧
    (move_to_angle_aux ⟨0, 0, Real.pi / 2⟩
      ⟨fun _ => false, fun _ => Except.ok ⟨0, 0, 0⟩, 1⟩ (0 + 1) 0).1.head? =
      some ⟨0, 1 * MOVE_ANGLE_K * yaw_b_wrt_a ⟨0, 0, 0⟩ ⟨0, 0, Real.pi / 2⟩⟩ := by
  have hyb : yaw_b_wrt_a (⟨0, 0, 0⟩ : Pose2) ⟨0, 0, Real.pi / 2⟩ = Real.pi / 2 := by
    show yaw_of_angle (Real.pi / 2 - 0) = Real.pi / 2
    rw [sub_zero]
    exact yaw_of_angle_eq_self _ (by linarith [Real.pi_pos]) (by linarith [Real.pi_pos])
  have h := C9_orientation_tick ⟨0, 0, Real.pi / 2⟩ ⟨0, 0, 0⟩
    ⟨fun _ => false, fun _ => Except.ok ⟨0, 0, 0⟩, 1⟩ 0 0 rfl rfl
  refine ⟨h.1, h.2.2 ?_⟩
  rw [hyb, abs_of_pos (by linarith [Real.pi_pos] : (0 : ℝ) < Real.pi / 2)]
  simp only [MOVE_TOL_YAW]
  intro hlt
  linarith [Real.pi_pos]

theorem move_next_initial_pose (cfg : Config) (s : CState) :
    (move_next cfg s).state.initial_pose = s.initial_pose := by
  rcases h : s.trajectory_pose_next with _ | c
  · simp only [move_next, h]
    split <;> rfl
  · rcases hp2 : s.trajectory_poses with _ | ps
    · simp only [move_next, h, hp2]
    · simp only [move_next, h, hp2]
      split <;> rfl

theorem define_initial_pose_of_some (cfg : Config) (s : CState) (ip : Pose2)
    (hip : s.initial_pose = some ip) : define_initial_pose cfg s = s := by
  simp [define_initial_pose, hip]

theorem define_initial_pose_tf (cfg : Config) (s : CState) :
    (define_initial_pose cfg s).tf = s.tf := by
  simp only [define_initial_pose]
  split <;> rfl

theorem current_pose_fst (cfg : Config) (s : CState) :
    (current_pose cfg s).1 = define_initial_pose cfg s := by
  simp only [current_pose]
  split <;> rfl

/-- C7: `currentPose` in ground-truth mode returns
`lookup(global_frame, robot_frame)` directly; in noisy mode it returns
`compose(initial_pose, lookup(odom, robot_frame))`; on the first query of
a clean episode it captures `initial_pose = lookup(global_frame,
robot_frame)`; and once captured, the initial pose is never overwritten by
`currentPose`, `create_pose_list`, `define_initial_pose` or `move_next`. -/
theorem C7_current_pose_modes_and_capture (cfg : Config) (s : CState) :
    (current_pose_gt_mode cfg = true →
      (current_pose cfg s).2 = some (s.tf cfg.global_frame cfg.robot_frame)) ∧
    (∀ ip : Pose2, current_pose_gt_mode cfg = false → s.initial_pose = some ip →
      (current_pose cfg s).2 = some (compose ip (s.tf "odom" cfg.robot_frame))) ∧
    (s.dirty = false → s.initial_pose = none →
      (current_pose cfg s).1.initial_pose =
        some (s.tf cfg.global_frame cfg.robot_frame)) ∧
    (∀ ip : Pose2, s.initial_pose = some ip →
      (current_pose cfg s).1.initial_pose = some ip ∧
      (create_pose_list cfg s).1.initial_pose = some ip ∧
      (define_initial_pose cfg s).initial_pose = some ip ∧
      (move_next cfg s).state.initial_pose = some ip) := by
  refine ⟨fun hgt => ?_, fun ip hgt hip => ?_, fun hd hnone => ?_, fun ip hip => ?_⟩
  · simp only [current_pose, hgt, if_true]
    rw [define_initial_pose_tf]
  · simp only [current_pose, hgt, Bool.false_eq_true, if_false,
      define_initial_pose_of_some cfg s ip hip, get_noisy_pose, hip, Option.map_some]
    rfl
  · rw [current_pose_fst]
    simp [define_initial_pose, hd, hnone]
  · refine ⟨?_, ?_, ?_, ?_⟩
    · rw [current_pose_fst, define_initial_pose_of_some cfg s ip hip]
      exact hip
    · show (define_initial_pose cfg s).initial_pose = some ip
      rw [define_initial_pose_of_some cfg s ip hip]
      exact hip
    · rw [define_initial_pose_of_some cfg s ip hip]
      exact hip
    · rw [move_next_initial_pose]
      exact hip

/-- C7 witness: a ground-truth configuration returning the direct lookup
and capturing the initial pose on a clean first query, and a noisy
configuration returning the odometric composition with the memoised
initial pose preserved across `move_next`. -/
theorem C7_current_pose_modes_and_capture_witness :
    (current_pose ⟨"task_ground_truth", "noisy", "map", "base", [], []⟩
      ⟨false, none, none, none, fun _ _ => ⟨3, 4, 0⟩⟩).2 = some ⟨3, 4, 0⟩ ∧
    (current_pose ⟨"task_ground_truth", "noisy", "map", "base", [], []⟩
      ⟨false, none, none, none, fun _ _ => ⟨3, 4, 0⟩⟩).1.initial_pose = some ⟨3, 4, 0⟩ ∧
    (current_pose ⟨"plain_task", "noisy", "map", "base", [], []⟩
      ⟨false, some ⟨1, 2, 0⟩, none, none, fun _ _ => ⟨3, 4, 0⟩⟩).2 =
      some (compose ⟨1, 2, 0⟩ ⟨3, 4, 0⟩) ∧
    (move_next ⟨"plain_task", "noisy", "map", "base", [], []⟩
      ⟨false, some ⟨1, 2, 0⟩, none, none, fun _ _ => ⟨3, 4, 0⟩⟩).state.initial_pose =
      some ⟨1, 2, 0⟩ := by
  refine ⟨?_, ?_, ?_, ?_⟩
  · exact (C7_current_pose_modes_and_capture
      ⟨"task_ground_truth", "noisy", "map", "base", [], []⟩
      ⟨false, none, none, none, fun _ _ => ⟨3, 4, 0⟩⟩).1 (by decide)
  · exact (C7_current_pose_modes_and_capture
      ⟨"task_ground_truth", "noisy", "map", "base", [], []⟩
      ⟨false, none, none, none, fun _ _ => ⟨3, 4, 0⟩⟩).2.2.1 rfl rfl
  · exact (C7_current_pose_modes_and_capture
      ⟨"plain_task", "noisy", "map", "base", [], []⟩
      ⟨false, some ⟨1, 2, 0⟩, none, none, fun _ _ => ⟨3, 4, 0⟩⟩).2.1
      ⟨1, 2, 0⟩ (by decide) rfl
  · exact ((C7_current_pose_modes_and_capture
      ⟨"plain_task", "noisy", "map", "base", [], []⟩
      ⟨false, some ⟨1, 2, 0⟩, none, none, fun _ _ => ⟨3, 4, 0⟩⟩).2.2.2
      ⟨1, 2, 0⟩ rfl).2.2.2

theorem compose_shift : compose ⟨5, 0, 0⟩ ⟨1, 0, 0⟩ = ⟨6, 0, 0⟩ := by
  simp only [compose, Pose2.mk.injEq]
  norm_num [Real.cos_zero, Real.sin_zero]

/-- C10: localisation-mode selection is inconsistent: `_current_pose`
checks for the substring ground_truth in the task NAME, while
`create_pose_list` checks the LOCALISATION field against noisy.  For a
session whose task name mentions ground truth but whose localisation field
is noisy, `_current_pose` resolves the privileged global lookup
(`⟨10,0,0⟩` below) while `create_pose_list` resolves the same robot frame
through the noisy composition (`initial ∘ odom = ⟨6,0,0⟩`). -/
theorem C10_mode_selection_mismatch :
    current_pose_gt_mode ⟨"ssu_ground_truth", "noisy", "map", "base", ["base"], []⟩ = true ∧
    create_pose_list_gt_mode ⟨"ssu_ground_truth", "noisy", "map", "base", ["base"], []⟩ = false ∧
    (current_pose ⟨"ssu_ground_truth", "noisy", "map", "base", ["base"], []⟩
      ⟨false, some ⟨5, 0, 0⟩, none, none,
        fun p _ => if p = "map" then ⟨10, 0, 0⟩ else ⟨1, 0, 0⟩⟩).2 = some ⟨10, 0, 0⟩ ∧
    (create_pose_list ⟨"ssu_ground_truth", "noisy", "map", "base", ["base"], []⟩
      ⟨false, some ⟨5, 0, 0⟩, none, none,
        fun p _ => if p = "map" then ⟨10, 0, 0⟩ else ⟨1, 0, 0⟩⟩).2 =
      [("base", some (compose ⟨5, 0, 0⟩ ⟨1, 0, 0⟩))] ∧
    compose ⟨5, 0, 0⟩ ⟨1, 0, 0⟩ ≠ (⟨10, 0, 0⟩ : Pose2) := by
  refine ⟨by decide, by decide, rfl, rfl, ?_⟩
  rw [compose_shift]
  simp only [ne_eq, Pose2.mk.injEq, not_and]
  intro h6
  norm_num at h6

theorem move_next_iter_state (cfg : Config) (s : CState)
    (h0 : s.trajectory_pose_next = none) :
    ∀ k : Nat, (move_next_iter cfg s (k + 1)).trajectory_pose_next =
        some (min (k + 1) cfg.trajectory_poses.length) ∧
      (move_next_iter cfg s (k + 1)).trajectory_poses = some cfg.trajectory_poses := by
  intro k
  induction k with
  | zero =>
    by_cases hlen : 0 < cfg.trajectory_poses.length
    · simp only [move_next_iter, move_next, h0, hlen, if_pos]
      exact ⟨by congr 1; omega, by trivial⟩
    · simp only [move_next_iter, move_next, h0, hlen, if_neg, ite_false]
      exact ⟨by congr 1; omega, by trivial⟩
  | succ k ih =>
    obtain ⟨hcur, hpos⟩ := ih
    by_cases hlt : min (k + 1) cfg.trajectory_poses.length < cfg.trajectory_poses.length
    · show (move_next cfg (move_next_iter cfg s (k + 1))).state.trajectory_pose_next = _ ∧
        (move_next cfg (move_next_iter cfg s (k + 1))).state.trajectory_poses = _
      simp only [move_next, hcur, hpos, hlt, if_pos]
      exact ⟨by congr 1; omega, by trivial⟩
    · show (move_next cfg (move_next_iter cfg s (k + 1))).state.trajectory_pose_next = _ ∧
        (move_next cfg (move_next_iter cfg s (k + 1))).state.trajectory_poses = _
      simp only [move_next, hcur, hpos, hlt, if_neg, ite_false]
      exact ⟨by congr 1; omega, by trivial⟩

/-- C2, amended: starting a clean session over the configured waypoint
list of length `n`, the first `n` `move_next` calls complete without
raising, invoke the drive-to-pose controller, and advance the cursor
`0 → 1 → … → n`; but every further call RAISES an uncaught index error
(Python `IndexError` on `trajectory_poses[cursor]`) instead of reporting
an `exhausted` outcome — it does not invoke the controller, and leaves the
cursor unchanged at `n`.  (The clause of the claim that further calls
report outcome exhausted and never crash is refuted by the counterexample;
the code only logs a run-out message after the n-th call and then indexes
past the end.) -/
theorem C2_waypoint_sequencing (cfg : Config) (s : CState)
    (h0 : s.trajectory_pose_next = none) :
    (∀ k : Nat, k < cfg.trajectory_poses.length →
      (move_next cfg (move_next_iter cfg s k)).ok = true ∧
      (move_next cfg (move_next_iter cfg s k)).invoked = true ∧
      (move_next_iter cfg s (k + 1)).trajectory_pose_next = some (k + 1)) ∧
    (∀ k : Nat, cfg.trajectory_poses.length ≤ k →
      (move_next cfg (move_next_iter cfg s k)).ok = false ∧
      (move_next cfg (move_next_iter cfg s k)).invoked = false ∧
      (move_next cfg (move_next_iter cfg s k)).state.trajectory_pose_next =
        some cfg.trajectory_poses.length) := by
  constructor
  · intro k hk
    match k with
    | 0 =>
      refine ⟨?_, ?_, ?_⟩ <;>
        simp only [move_next_iter, move_next, h0, hk, if_pos]
    | j + 1 =>
      obtain ⟨hcur, hpos⟩ := move_next_iter_state cfg s h0 j
      have hmin : min (j + 1) cfg.trajectory_poses.length = j + 1 := by omega
      rw [hmin] at hcur
      refine ⟨?_, ?_, ?_⟩
      · simp only [move_next, hcur, hpos, hk, if_pos]
      · simp only [move_next, hcur, hpos, hk, if_pos]
      · rw [show move_next_iter cfg s (j + 1 + 1) =
            (move_next cfg (move_next_iter cfg s (j + 1))).state from rfl]
        simp only [move_next, hcur, hpos, hk, if_pos]
  · intro k hk
    match k with
    | 0 =>
      have hlen : cfg.trajectory_poses.length = 0 := by omega
      have hnlt : ¬ (0 : Nat) < cfg.trajectory_poses.length := by omega
      refine ⟨?_, ?_, ?_⟩
      · simp only [move_next_iter, move_next, h0, hnlt, if_neg, ite_false]
      · simp only [move_next_iter, move_next, h0, hnlt, if_neg, ite_false]
      · simp only [move_next_iter, move_next, h0, hnlt, if_neg, ite_false]
        rw [hlen]
    | j + 1 =>
      obtain ⟨hcur, hpos⟩ := move_next_iter_state cfg s h0 j
      have hmin : min (j + 1) cfg.trajectory_poses.length =
          cfg.trajectory_poses.length := by omega
      rw [hmin] at hcur
      have hnlt : ¬ cfg.trajectory_poses.length < cfg.trajectory_poses.length := by omega
      refine ⟨?_, ?_, ?_⟩ <;>
        simp only [move_next, hcur, hpos, hnlt, if_neg, ite_false]

/-- C2 counterexample: three waypoints; the three calls advance the cursor
to `3` without raising, and the FOURTH call raises (`ok = false`, the
uncaught `IndexError`) instead of reporting an `exhausted` outcome — the
never-crashes clause of the claim fails.  The controller is not invoked by the
fourth call and the cursor stays at `3`. -/
theorem C2_counterexample :
    (move_next_iter ⟨"t", "noisy", "map", "base", [], [[0], [0], [0]]⟩
      ⟨false, none, none, none, fun _ _ => ⟨0, 0, 0⟩⟩ 1).trajectory_pose_next = some 1 ∧
    (move_next_iter ⟨"t", "noisy", "map", "base", [], [[0], [0], [0]]⟩
      ⟨false, none, none, none, fun _ _ => ⟨0, 0, 0⟩⟩ 2).trajectory_pose_next = some 2 ∧
    (move_next_iter ⟨"t", "noisy", "map", "base", [], [[0], [0], [0]]⟩
      ⟨false, none, none, none, fun _ _ => ⟨0, 0, 0⟩⟩ 3).trajectory_pose_next = some 3 ∧
    (move_next ⟨"t", "noisy", "map", "base", [], [[0], [0], [0]]⟩
      (move_next_iter ⟨"t", "noisy", "map", "base", [], [[0], [0], [0]]⟩
        ⟨false, none, none, none, fun _ _ => ⟨0, 0, 0⟩⟩ 2)).ok = true ∧
    (move_next ⟨"t", "noisy", "map", "base", [], [[0], [0], [0]]⟩
      (move_next_iter ⟨"t", "noisy", "map", "base", [], [[0], [0], [0]]⟩
        ⟨false, none, none, none, fun _ _ => ⟨0, 0, 0⟩⟩ 3)).ok = false ∧
    (move_next ⟨"t", "noisy", "map", "base", [], [[0], [0], [0]]⟩
      (move_next_iter ⟨"t", "noisy", "map", "base", [], [[0], [0], [0]]⟩
        ⟨false, none, none, none, fun _ _ => ⟨0, 0, 0⟩⟩ 3)).invoked = false ∧
    (move_next ⟨"t", "noisy", "map", "base", [], [[0], [0], [0]]⟩
      (move_next_iter ⟨"t", "noisy", "map", "base", [], [[0], [0], [0]]⟩
        ⟨false, none, none, none, fun _ _ => ⟨0, 0, 0⟩⟩ 3)).state.trajectory_pose_next =
      some 3 :=
  ⟨rfl, rfl, rfl, rfl, rfl, rfl, rfl⟩

/-- C2 witness: on the three-waypoint configuration the first call
succeeds and the call after exhaustion (the fourth) fails. -/
theorem C2_waypoint_sequencing_witness :
    (move_next ⟨"t2", "noisy", "map", "base", [], [[1], [1], [1]]⟩
      (move_next_iter ⟨"t2", "noisy", "map", "base", [], [[1], [1], [1]]⟩
        ⟨false, none, none, none, fun _ _ => ⟨0, 0, 0⟩⟩ 0)).ok = true ∧
    (move_next ⟨"t2", "noisy", "map", "base", [], [[1], [1], [1]]⟩
      (move_next_iter ⟨"t2", "noisy", "map", "base", [], [[1], [1], [1]]⟩
        ⟨false, none, none, none, fun _ _ => ⟨0, 0, 0⟩⟩ 3)).ok = false :=
  ⟨((C2_waypoint_sequencing ⟨"t2", "noisy", "map", "base", [], [[1], [1], [1]]⟩
      ⟨false, none, none, none, fun _ _ => ⟨0, 0, 0⟩⟩ rfl).1 0 (by norm_num)).1,
   ((C2_waypoint_sequencing ⟨"t2", "noisy", "map", "base", [], [[1], [1], [1]]⟩
      ⟨false, none, none, none, fun _ _ => ⟨0, 0, 0⟩⟩ rfl).2 3 (by norm_num)).1⟩
